import Mathlib

/-
Verification of the Bulk_updater front-end (device-management form,
auth session store, log stream) against its specification.

The definitions below are a shallow embedding of the TypeScript sources:
  - src/static/js/components/main_page.tsx  (form state, submission builder,
    field rendering, log-stream message handler)
  - src/static/js/components/AuthContext.tsx (login / logout session store)
Network I/O is modelled by passing the outcome of the fetch call as an
explicit argument; React state updates are modelled as pure state-passing
functions on explicit state records.
-/

namespace BulkUpdater

/-- A log entry as parsed from a server-sent event:
target, level and message fields (main_page.tsx, interface Log). -/
structure Log where
  target : String
  level : String
  message : String
deriving DecidableEq, Repr

/-- The operations offering the direct-IMEI-input toggle
(main_page.tsx, imeiOnlyOperations, lines 66-71). -/
def imeiOnlyOperations : List String :=
  ["addTags", "deleteTags", "undeploy", "deleteThingsKeys"]

/-- The operation catalog: the keys of operationIcons
(main_page.tsx, lines 14-23), in declaration order; the sidebar renders
one button per entry. -/
def operationCatalog : List String :=
  ["addSettings", "applyProfile", "addTags", "deleteTags", "changeDef",
   "undeploy", "deleteThingsKeys", "deleteThingsTags"]

/-- The form state held by MainPage via useState hooks
(main_page.tsx, lines 52-58). A File value is modelled as an
Option String token; null maps to none. -/
structure FormState where
  operation : String
  file : Option String
  imeis : String
  useDirectInput : Bool
  profileId : String
  tags : String
  thingKey : String
deriving DecidableEq, Repr

/-- The initial useState values of MainPage (main_page.tsx, lines 52-58). -/
def initialFormState : FormState :=
  { operation := "addTags", file := none, imeis := "",
    useDirectInput := false, profileId := "", tags := "", thingKey := "" }

/-- The multipart FormData assembled by handleSubmit: each field is present
(some value) exactly when the code calls formData.append for it
(main_page.tsx, lines 110-120). -/
structure FormDataPayload where
  imeis : Option String
  file : Option String
  operation : Option String
  useDirectInput : Option String
  profileId : Option String
  tags : Option String
  thingKey : Option String
deriving DecidableEq, Repr

/-- Embedding of the payload-assembly part of handleSubmit
(main_page.tsx, lines 110-120): the imeis text is appended when the
direct-input toggle is on and the operation is IMEI-only, otherwise the
file is appended when one is chosen; operation and useDirectInput are
always appended; profileId, tags and thingKey are appended exactly when
the corresponding string is truthy, i.e. non-empty. -/
def buildFormData (s : FormState) : FormDataPayload :=
  { imeis :=
      if s.useDirectInput && imeiOnlyOperations.contains s.operation
      then some s.imeis else none
    file :=
      if s.useDirectInput && imeiOnlyOperations.contains s.operation
      then none else s.file
    operation := some s.operation
    useDirectInput := some (if s.useDirectInput then "true" else "false")
    profileId := if s.profileId = "" then none else some s.profileId
    tags := if s.tags = "" then none else some s.tags
    thingKey := if s.thingKey = "" then none else some s.thingKey }

/-- An HTTP response as seen by handleSubmit: the ok flag, the numeric
status, the status text and the parsed JSON body (kept abstract as a
string token). -/
structure HttpResponse where
  ok : Bool
  status : Nat
  statusText : String
  body : String
deriving DecidableEq, Repr

/-- Outcome of the fetch call in handleSubmit: either a response arrived
or the promise rejected with an error message. -/
inductive FetchOutcome where
  | response (r : HttpResponse)
  | networkError (message : String)
deriving DecidableEq, Repr

/-- The value stored into the result state: either the parsed JSON body or
an object with a single error message field. -/
inductive SubmitResult where
  | success (data : String)
  | error (message : String)
deriving DecidableEq, Repr

/-- Embedding of the try-block of handleSubmit after the payload is built
(main_page.tsx, lines 122-132): a rejected fetch propagates its message;
a response with ok = false raises the fixed message "Server error"
(line 128); otherwise the JSON body is returned. -/
def attemptSubmit (f : FetchOutcome) : Except String String :=
  match f with
  | .networkError m => .error m
  | .response r => if r.ok then .ok r.body else .error "Server error"

/-- Embedding of handleSubmit's catch clause (main_page.tsx, lines
133-137): a thrown Error becomes a displayed result carrying its message;
a normal return displays the body. -/
def displayedResult (f : FetchOutcome) : SubmitResult :=
  match attemptSubmit f with
  | .ok d => .success d
  | .error m => .error m

/-- Which of the four conditionally rendered form controls are shown for a
given active operation (main_page.tsx: direct-input toggle line 178,
profileId input line 248, tags input line 267, thingKey input line 288). -/
structure VisibleFields where
  directInputToggle : Bool
  tagsField : Bool
  profileIdField : Bool
  thingKeyField : Bool
deriving DecidableEq, Repr

/-- The rendering conditions of main_page.tsx as a pure function of the
active operation. -/
def visibleFields (op : String) : VisibleFields :=
  { directInputToggle := imeiOnlyOperations.contains op
    tagsField := ["addTags", "deleteTags", "deleteThingsTags"].contains op
    profileIdField := op == "applyProfile"
    thingKeyField := op == "changeDef" }

/-- User interactions that mutate the form state: clicking an operation in
the sidebar (which also runs the useEffect of main_page.tsx lines
143-147), toggling the direct-input checkbox (rendered only for IMEI-only
operations, line 178), and editing the text inputs or choosing a file. -/
inductive FormEvent where
  | selectOperation (op : String)
  | toggleDirectInput (checked : Bool)
  | setImeisText (t : String)
  | setProfileIdText (t : String)
  | setTagsText (t : String)
  | setThingKeyText (t : String)
  | chooseFile (f : String)
deriving DecidableEq, Repr

/-- One step of the form-state transition system. selectOperation sets the
operation and then applies the effect of main_page.tsx lines 143-147,
clearing useDirectInput when the new operation is not IMEI-only.
toggleDirectInput only has an effect when the checkbox is rendered, i.e.
when the active operation is IMEI-only (line 178). -/
def applyFormEvent (s : FormState) (e : FormEvent) : FormState :=
  match e with
  | .selectOperation op =>
      if imeiOnlyOperations.contains op
      then { s with operation := op }
      else { s with operation := op, useDirectInput := false }
  | .toggleDirectInput checked =>
      if imeiOnlyOperations.contains s.operation
      then { s with useDirectInput := checked }
      else s
  | .setImeisText t => { s with imeis := t }
  | .setProfileIdText t => { s with profileId := t }
  | .setTagsText t => { s with tags := t }
  | .setThingKeyText t => { s with thingKey := t }
  | .chooseFile f => { s with file := some f }

/-- The form state reached from the initial state by a sequence of user
interactions. -/
def runEvents (es : List FormEvent) : FormState :=
  es.foldl applyFormEvent initialFormState

/-- State of the server-sent-event log section of MainPage: the appended
log list, the error indicator, and whether the EventSource is still open
(closed only by the unmount cleanup, main_page.tsx lines 90-92). -/
structure LogStreamState where
  logs : List Log
  error : Option String
  streamOpen : Bool
deriving DecidableEq, Repr

/-- Embedding of the onmessage handler (main_page.tsx, lines 75-84): the
argument is the outcome of JSON.parse on the event data, none meaning the
parse threw. A parse failure sets the error indicator; a parsed entry is
appended exactly when its message field is truthy. The handler never
touches the EventSource. -/
def onLogMessage (s : LogStreamState) (parsed : Option Log) : LogStreamState :=
  match parsed with
  | none => { s with error := some "Error parsing log data" }
  | some logData =>
      if logData.message = "" then s
      else { s with logs := s.logs ++ [logData] }

/-- Embedding of the unmount cleanup (main_page.tsx, lines 90-92), the only
place the EventSource is closed. -/
def unmountCleanup (s : LogStreamState) : LogStreamState :=
  { s with streamOpen := false }

/-- The auth session store held by AuthProvider
(AuthContext.tsx, lines 14-15). -/
structure AuthState where
  isAuthenticated : Bool
  username : Option String
deriving DecidableEq, Repr

/-- The JSON body of a response to the login fetch: the requireMFA flag,
the optional username, and the optional detail message (an absent or empty
detail is falsy). -/
structure LoginResponseData where
  requireMFA : Bool
  username : Option String
  detail : String
deriving DecidableEq, Repr

/-- Outcome of the fetch call inside login: either a response with its ok
flag and parsed body, or a rejection with an error message. -/
inductive LoginFetchOutcome where
  | response (ok : Bool) (data : LoginResponseData)
  | networkError (message : String)
deriving DecidableEq, Repr

/-- What a call to login leaves behind: the new store state and either the
returned requireMFA flag or the message of the rethrown error. -/
structure LoginOutcome where
  state : AuthState
  result : Except String Bool
deriving Repr

/-- Embedding of login (AuthContext.tsx, lines 41-72): on an ok response
without requireMFA the store becomes authenticated with the response's
username and requireMFA is returned; on an ok response with requireMFA the
store is untouched and requireMFA is returned; on a non-ok response an
error with the body's detail (or the fallback text) is thrown, and the
catch clause clears the store and rethrows; a rejected fetch is caught the
same way. -/
def login (s : AuthState) (f : LoginFetchOutcome) : LoginOutcome :=
  match f with
  | .response ok data =>
      if ok then
        if data.requireMFA then
          { state := s, result := .ok true }
        else
          { state := { isAuthenticated := true, username := data.username },
            result := .ok false }
      else
        { state := { isAuthenticated := false, username := none },
          result := .error (if data.detail = "" then "Login failed" else data.detail) }
  | .networkError m =>
      { state := { isAuthenticated := false, username := none },
        result := .error m }

/-- Embedding of logout (AuthContext.tsx, lines 74-85): the fetch to
/auth/logout is awaited inside a try whose catch only logs, and the two
state-clearing calls run unconditionally afterwards, so the outcome of the
server call is ignored. -/
def logout (_s : AuthState) (fetchOutcome : Except String Unit) : AuthState :=
  match fetchOutcome with
  | .ok _ => { isAuthenticated := false, username := none }
  | .error _ => { isAuthenticated := false, username := none }

/-- Removal of leading and trailing spaces from a list of characters. -/
def trimSpaces (cs : List Char) : List Char :=
  ((cs.dropWhile (fun c => c = ' ')).reverse.dropWhile (fun c => c = ' ')).reverse

/-- Modelled from the spec, not the code (the code sends the raw string):
the tag normalization contract of spec section 4.2 — split the input on
commas, trim each entry, drop empty entries, keep order. -/
def specNormalizeTags (input : String) : List String :=
  (((input.data.splitOn ',').map fun cs => String.mk (trimSpaces cs)).filter
    fun t => t ≠ "")

/-- Modelled from the spec, not the code: serialization of a tag list for
transmission, as a JSON-style array of quoted strings. -/
def serializeTagList (ts : List String) : String :=
  "[" ++ String.intercalate "," (ts.map (fun t => "\"" ++ t ++ "\"")) ++ "]"

/-- Whether the string needle occurs as a contiguous substring of hay
(used to check that a message carries a status code or status text). -/
def occursIn (needle hay : String) : Bool :=
  hay.data.tails.any (fun t => needle.data.isPrefixOf t)

/-! Concrete states used by counterexamples and witnesses. -/

/-- A 500 response as handleSubmit would receive it. -/
def response500 : HttpResponse :=
  { ok := false, status := 500, statusText := "Internal Server Error", body := "" }

/-- Form state whose tags input is the spec's example string. -/
def tagsExampleState : FormState := { initialFormState with tags := "a, b ,b," }

/-- Form state with a profile name that no backend id corresponds to. -/
def unmappedProfileState : FormState :=
  { initialFormState with operation := "applyProfile", profileId := "No Such Profile" }

/-- Direct-input form state with typed identifiers. -/
def directInputState : FormState :=
  { initialFormState with useDirectInput := true, imeis := "111" }

/-- File-upload form state with a chosen file, under a file-only
operation. -/
def fileUploadState : FormState :=
  { initialFormState with operation := "addSettings", file := some "devices.csv" }

/-- Form state for a changeDef submission with only a thing-definition
key typed. -/
def thingKeyState : FormState :=
  { initialFormState with operation := "changeDef", thingKey := "tk-1" }

/-! Theorems settling the claims. -/

/-- Claim C1, counterexample: on a 500 response the displayed result is the
fixed message "Server error"; it contains neither the status code 500 nor
the status text, and is not the structured message the claim describes. -/
theorem c1_counterexample :
    displayedResult (.response response500) = .error "Server error" ∧
    occursIn "500" "Server error" = false ∧
    occursIn "Internal Server Error" "Server error" = false ∧
    displayedResult (.response response500) ≠
      .error "Server responded with 500: Internal Server Error" := by
  refine ⟨rfl, by decide, by decide, by decide⟩

/-- Claim C1, amended: on every non-success HTTP response, handleSubmit
sets the displayed result to an error object whose message is the fixed
string "Server error", independent of the status code and status text. -/
theorem c1_amended_fixed_error_message (r : HttpResponse) (h : r.ok = false) :
    displayedResult (.response r) = .error "Server error" := by
  simp [displayedResult, attemptSubmit, h]

/-- Witness for the amended claim C1 at the concrete 500 response. -/
theorem c1_amended_fixed_error_message_witness :
    displayedResult (.response response500) = .error "Server error" :=
  c1_amended_fixed_error_message response500 rfl

/-- Claim C3: for every form state, submitting with the toggle on and an
operation supporting direct input puts the raw imeis text in the payload
and omits the file field; submitting with the toggle off and a chosen file
attaches the file and omits the imeis field, for every operation. -/
theorem c3_direct_input_vs_file (s : FormState) (f : String) :
    (s.useDirectInput = true → imeiOnlyOperations.contains s.operation = true →
        (buildFormData s).imeis = some s.imeis ∧ (buildFormData s).file = none) ∧
    (s.useDirectInput = false → s.file = some f →
        (buildFormData s).file = some f ∧ (buildFormData s).imeis = none) := by
  constructor
  · intro hd hop
    have hmem : s.operation ∈ imeiOnlyOperations := by simpa using hop
    simp [buildFormData, hd, hmem]
  · intro hd hf
    simp [buildFormData, hd, hf]

/-- Witness for claim C3 at a direct-input state and a file-upload state
whose operation (addSettings) is file-only. -/
theorem c3_direct_input_vs_file_witness :
    ((buildFormData directInputState).imeis = some directInputState.imeis ∧
      (buildFormData directInputState).file = none) ∧
    ((buildFormData fileUploadState).file = some "devices.csv" ∧
      (buildFormData fileUploadState).imeis = none) :=
  ⟨(c3_direct_input_vs_file directInputState "devices.csv").1 rfl (by decide),
   (c3_direct_input_vs_file fileUploadState "devices.csv").2 rfl rfl⟩

/-- Claim C4, counterexample: for the tag input "a, b ,b," the transmitted
tags field is the raw string itself; it is not the serialized normalized
list (which the spec-modelled normalization yields), and in particular not
the serialization of the list containing a and b. -/
theorem c4_counterexample :
    (buildFormData tagsExampleState).tags = some "a, b ,b," ∧
    specNormalizeTags "a, b ,b," = ["a", "b", "b"] ∧
    (buildFormData tagsExampleState).tags ≠
      some (serializeTagList (specNormalizeTags "a, b ,b,")) ∧
    (buildFormData tagsExampleState).tags ≠ some (serializeTagList ["a", "b"]) := by
  refine ⟨by decide, by decide, by decide, by decide⟩

/-- Claim C4, amended: the tags value is transmitted verbatim as the raw
comma-separated input string whenever it is non-empty; no splitting,
trimming or list serialization is applied. -/
theorem c4_amended_raw_tags (s : FormState) (h : s.tags ≠ "") :
    (buildFormData s).tags = some s.tags := by
  simp [buildFormData, h]

/-- Witness for the amended claim C4 at the spec's example input. -/
theorem c4_amended_raw_tags_witness :
    (buildFormData tagsExampleState).tags = some tagsExampleState.tags :=
  c4_amended_raw_tags tagsExampleState (by decide)

/-- Claim C5, counterexample: the operation catalog has no onboarding
entry, and no field is declared or rendered for an onboarding operation,
contradicting the claim's required field sets for onboarding. -/
theorem c5_counterexample :
    operationCatalog.contains "onboarding" = false ∧
    (visibleFields "onboarding").tagsField = false ∧
    (visibleFields "onboarding").profileIdField = false ∧
    (visibleFields "onboarding").thingKeyField = false ∧
    (visibleFields "onboarding").directInputToggle = false := by
  refine ⟨by decide, by decide, by decide, by decide, by decide⟩

/-- Claim C5, amended: the catalog supports exactly the eight operations
addSettings, applyProfile, addTags, deleteTags, changeDef, undeploy,
deleteThingsKeys, deleteThingsTags (no onboarding); the tags field is
rendered exactly for addTags, deleteTags and deleteThingsTags, the profile
field exactly for applyProfile, the thing-definition field exactly for
changeDef, and the direct-input toggle exactly for the IMEI-only set. -/
theorem c5_amended_catalog_fields (op : String) :
    ((visibleFields op).tagsField = true ↔
        (op = "addTags" ∨ op = "deleteTags" ∨ op = "deleteThingsTags")) ∧
    ((visibleFields op).profileIdField = true ↔ op = "applyProfile") ∧
    ((visibleFields op).thingKeyField = true ↔ op = "changeDef") ∧
    ((visibleFields op).directInputToggle = true ↔
        (op = "addTags" ∨ op = "deleteTags" ∨ op = "undeploy" ∨
          op = "deleteThingsKeys")) ∧
    operationCatalog =
      ["addSettings", "applyProfile", "addTags", "deleteTags", "changeDef",
       "undeploy", "deleteThingsKeys", "deleteThingsTags"] := by
  refine ⟨?_, ?_, ?_, ?_, rfl⟩ <;>
    simp [visibleFields, imeiOnlyOperations, List.contains, List.elem_cons,
      List.elem_nil]

/-- Claim C6, counterexample: the profile value is a free-text input
transmitted verbatim — for the typed display name "No Such Profile" the
built payload carries that very string with no translation and no input
error, so an unmapped name is sent unresolved. -/
theorem c6_counterexample :
    (buildFormData unmappedProfileState).profileId = some "No Such Profile" ∧
    (buildFormData unmappedProfileState).operation = some "applyProfile" := by
  refine ⟨by decide, by decide⟩

/-- Claim C6, amended: there is no lookup table; the profile and
thing-definition values are free-text strings transmitted verbatim in the
payload whenever non-empty, and submission never fails on an unmapped
name. -/
theorem c6_amended_verbatim_ids (s : FormState) :
    (s.profileId ≠ "" → (buildFormData s).profileId = some s.profileId) ∧
    (s.thingKey ≠ "" → (buildFormData s).thingKey = some s.thingKey) := by
  constructor
  · intro hp
    simp [buildFormData, hp]
  · intro ht
    simp [buildFormData, ht]

/-- Witness for the amended claim C6 at a profile-only state and a
thing-key-only state. -/
theorem c6_amended_verbatim_ids_witness :
    (buildFormData unmappedProfileState).profileId = some "No Such Profile" ∧
    (buildFormData thingKeyState).thingKey = some "tk-1" :=
  ⟨(c6_amended_verbatim_ids unmappedProfileState).1 (by decide),
   (c6_amended_verbatim_ids thingKeyState).2 (by decide)⟩

/-- Claim C7: logout leaves the session store unauthenticated with no
username for every outcome of the /auth/logout call, including a rejected
fetch. -/
theorem c7_logout_always_clears (s : AuthState) (fetchOutcome : Except String Unit) :
    (logout s fetchOutcome).isAuthenticated = false ∧
    (logout s fetchOutcome).username = none := by
  cases fetchOutcome <;> exact ⟨rfl, rfl⟩

/-- The direct-input invariant: the toggle is on only for an IMEI-only
active operation. -/
def directInputInvariant (s : FormState) : Prop :=
  s.useDirectInput = true → imeiOnlyOperations.contains s.operation = true

/-- Every single user interaction preserves the direct-input invariant:
selecting a non-eligible operation clears the toggle, and the toggle can
only be set while an eligible operation is active. -/
lemma applyFormEvent_preserves_directInputInvariant (s : FormState) (e : FormEvent)
    (h : directInputInvariant s) : directInputInvariant (applyFormEvent s e) := by
  cases e <;>
    simp only [applyFormEvent, directInputInvariant] at h ⊢ <;>
    try exact h
  case selectOperation op => split <;> simp_all
  case toggleDirectInput checked => split <;> simp_all

/-- The direct-input invariant is preserved along any interaction
sequence. -/
lemma foldl_preserves_directInputInvariant (es : List FormEvent) (s : FormState)
    (h : directInputInvariant s) :
    directInputInvariant (es.foldl applyFormEvent s) := by
  induction es generalizing s with
  | nil => exact h
  | cons e rest ih =>
      exact ih (applyFormEvent s e) (applyFormEvent_preserves_directInputInvariant s e h)

/-- Claim C2: switching the active operation to one that does not support
direct input resets the toggle to off (first conjunct, for any state); and
in every form state reachable from the initial state by user interactions,
the toggle being on implies the active operation is IMEI-only. -/
theorem c2_direct_input_reset_invariant (s : FormState) (newOp : String)
    (es : List FormEvent) (hreach : s = runEvents es) :
    ((applyFormEvent s (.selectOperation newOp)).useDirectInput = true →
        imeiOnlyOperations.contains newOp = true) ∧
    (s.useDirectInput = true →
        imeiOnlyOperations.contains s.operation = true) := by
  constructor
  · simp only [applyFormEvent]
    split
    · intro _; assumption
    · intro hfalse; exact absurd hfalse (by simp)
  · subst hreach
    exact foldl_preserves_directInputInvariant es initialFormState
      (fun h => absurd h (by decide))

/-- Witness for claim C2 at the state reached by toggling direct input on
from the initial state, switching to addSettings. -/
theorem c2_direct_input_reset_invariant_witness :
    ((applyFormEvent (runEvents [FormEvent.toggleDirectInput true])
        (.selectOperation "addSettings")).useDirectInput = true →
      imeiOnlyOperations.contains "addSettings" = true) ∧
    ((runEvents [FormEvent.toggleDirectInput true]).useDirectInput = true →
      imeiOnlyOperations.contains
        (runEvents [FormEvent.toggleDirectInput true]).operation = true) :=
  c2_direct_input_reset_invariant (runEvents [FormEvent.toggleDirectInput true])
    "addSettings" [FormEvent.toggleDirectInput true] rfl

/-- Claim C8: on an ok login response without an MFA requirement the store
becomes authenticated with the response's username and requireMFA false is
returned; on an ok response with an MFA requirement the store is left
unchanged and requireMFA true is returned. -/
theorem c8_login_transitions (s : AuthState) (data : LoginResponseData) :
    (data.requireMFA = false →
        login s (.response true data) =
          { state := { isAuthenticated := true, username := data.username },
            result := .ok false }) ∧
    (data.requireMFA = true →
        (login s (.response true data)).state = s ∧
        (login s (.response true data)).result = .ok true) := by
  constructor
  · intro h
    simp [login, h]
  · intro h
    simp [login, h]

/-- Witness for claim C8 at concrete responses with and without an MFA
requirement. -/
theorem c8_login_transitions_witness :
    (login { isAuthenticated := false, username := none }
        (.response true { requireMFA := false, username := some "alice", detail := "" }) =
      { state := { isAuthenticated := true, username := some "alice" },
        result := .ok false }) ∧
    ((login { isAuthenticated := false, username := none }
        (.response true { requireMFA := true, username := none, detail := "" })).state =
          { isAuthenticated := false, username := none } ∧
      (login { isAuthenticated := false, username := none }
        (.response true { requireMFA := true, username := none, detail := "" })).result =
          .ok true) :=
  ⟨(c8_login_transitions { isAuthenticated := false, username := none }
      { requireMFA := false, username := some "alice", detail := "" }).1 rfl,
   (c8_login_transitions { isAuthenticated := false, username := none }
      { requireMFA := true, username := none, detail := "" }).2 rfl⟩

/-- Claim C9: a log event whose data fails to parse sets the error
indicator, leaves the log sequence unchanged and leaves the stream open
flag untouched; a subsequent well-formed event is still appended. -/
theorem c9_malformed_event_keeps_stream (s : LogStreamState) (l : Log)
    (h : l.message ≠ "") :
    (onLogMessage s none).logs = s.logs ∧
    (onLogMessage s none).streamOpen = s.streamOpen ∧
    (onLogMessage s none).error = some "Error parsing log data" ∧
    (onLogMessage (onLogMessage s none) (some l)).logs = s.logs ++ [l] := by
  refine ⟨rfl, rfl, rfl, ?_⟩
  simp [onLogMessage, h]

/-- Witness for claim C9 at a concrete stream state and log entry. -/
theorem c9_malformed_event_keeps_stream_witness :
    (onLogMessage { logs := [], error := none, streamOpen := true } none).logs = [] ∧
    (onLogMessage { logs := [], error := none, streamOpen := true } none).streamOpen =
      true ∧
    (onLogMessage { logs := [], error := none, streamOpen := true } none).error =
      some "Error parsing log data" ∧
    (onLogMessage (onLogMessage { logs := [], error := none, streamOpen := true } none)
        (some { target := "worker", level := "info", message := "started" })).logs =
      [] ++ [{ target := "worker", level := "info", message := "started" }] :=
  c9_malformed_event_keeps_stream { logs := [], error := none, streamOpen := true }
    { target := "worker", level := "info", message := "started" } (by decide)

/-- Claim C10: every built payload carries the operation and the
useDirectInput flag, and carries each of profileId, tags and thingKey
exactly when the corresponding form value is non-empty, independent of the
active operation; switching the active operation changes none of these
three payload fields. -/
theorem c10_payload_auxiliary_fields (s : FormState) (newOp : String) :
    (buildFormData s).operation = some s.operation ∧
    (buildFormData s).useDirectInput =
      some (if s.useDirectInput then "true" else "false") ∧
    (buildFormData s).profileId =
      (if s.profileId = "" then none else some s.profileId) ∧
    (buildFormData s).tags = (if s.tags = "" then none else some s.tags) ∧
    (buildFormData s).thingKey =
      (if s.thingKey = "" then none else some s.thingKey) ∧
    (buildFormData (applyFormEvent s (.selectOperation newOp))).profileId =
      (buildFormData s).profileId ∧
    (buildFormData (applyFormEvent s (.selectOperation newOp))).tags =
      (buildFormData s).tags ∧
    (buildFormData (applyFormEvent s (.selectOperation newOp))).thingKey =
      (buildFormData s).thingKey := by
  refine ⟨rfl, rfl, rfl, rfl, rfl, ?_, ?_, ?_⟩ <;>
    simp only [applyFormEvent, buildFormData] <;> split <;> rfl

end BulkUpdater
